import Mathlib

/- Shallow embedding of the host orchestration layer of the fused multi-head
attention forward pass, src/csrc/stream_attn/fmha_api.cpp: the functions
`set_params` and `mha_fwd`.

Modelling conventions:
* C `float`/`double` values are modelled as exact rationals (ℚ); every
  floating-point comparison and arithmetic operation of the source appears
  here as the corresponding exact operation on ℚ.  The reduced-precision
  copies produced by `set_alpha` hold the same numeric values and are not
  modelled separately.
* Machine integers are modelled as ℤ (tensor sizes, device properties,
  `int` arithmetic) or ℕ (unsigned quantities); the C++ `int` division in
  the tile planner is `Int.tdiv` (truncation toward zero), and the
  `uint32_t`/`uint16_t` casts of nonnegative in-range values are
  `Int.toNat` followed by reduction modulo the word size.
* Device tensors are modelled by their metadata (shape as a list of sizes,
  device and contiguity flags) plus, for the offsets tensor, its element
  values; output buffers are modelled by a tag, their shape and their
  initialisation state (`Fill`).
* The CUDA generator is modelled by its (seed, philox counter offset)
  state; `philox_cuda_state` reads the current state and advances the
  counter by the requested increment, as the PyTorch generator does.  The
  mutex acquire/release around that call and the kernel launches are
  recorded in an event trace.
* Modelled from the spec: the kernel-side configure step
  `run_fmha_fp16_sm80(launch_params, configure = true)` lives in the kernel
  sources that are not part of this repository snapshot; the only fact
  about it that the host layer uses is the per-thread draw budget
  `elts_per_thread` that it reports, which is therefore an abstract
  parameter of `mha_fwd`.
* Modelled from the spec: the dimension-index constants TOTAL_DIM, H_DIM,
  THREE_DIM, D_DIM come from the header fmha.h, absent from the snapshot;
  the packed layout documented at the `mha_fwd` signature
  (total x num_heads x 4 x head_size) fixes them to 0, 1, 2, 3.
-/

namespace StreamAttn

/-- Failure taxonomy of the host layer.  Each TORCH_CHECK of the source is
mapped, in source order, to the constructor naming the condition it tests
(the names for batch layout, head dimension, dropout probability and device
capability follow the taxonomy of the design document). -/
inductive FwdError where
  | deviceCapabilityUnsupported
  | qkvNotOnDevice
  | seqlensNotOnDevice
  | qkvNotContiguous
  | seqlensNotContiguous
  | seqlensNotOneDim
  | qkvNotFourDim
  | badPackedAxis
  | invalidBatchLayout
  | unsupportedHeadDim
  | invalidDropoutProbability
deriving DecidableEq

/-- Initialisation state of an output or temporary buffer: freshly
allocated (torch::empty), zero-filled (zero_), or filled with negative
infinity (fill_(-inf)). -/
inductive Fill where
  | uninit
  | zeros
  | negInf
deriving DecidableEq

/-- Identity of each buffer allocated by `mha_fwd`: `ctx`, `ctx2`,
`softmax_lse`, the looped-mode temporaries `o_tmp`, `o2_tmp`, and the
diagnostic softmax matrix `s`. -/
inductive BufTag where
  | context
  | context2
  | softmaxLse
  | oTmp
  | o2Tmp
  | sDiag
deriving DecidableEq

/-- A buffer allocated by `mha_fwd`: its identity, its shape (list of
sizes, as in tensor.sizes()), and its initialisation state. -/
structure OutTensor where
  tag : BufTag
  shape : List ℤ
  fill : Fill
deriving DecidableEq

/-- Metadata of an input `at::Tensor`: shape, device and contiguity flags,
and (used only for `cu_seqlens`, whose integer contents the host layer
could read) the element values. -/
structure ATTensor where
  shape : List ℤ
  is_cuda : Bool
  is_contiguous : Bool
  values : List ℤ
deriving DecidableEq

/-- tensor.dim(): number of axes. -/
def ATTensor.dim (t : ATTensor) : ℕ := t.shape.length

/-- tensor.numel(): product of the sizes. -/
def ATTensor.numel (t : ATTensor) : ℤ := t.shape.prod

/-- Modelled from the spec: index constants from fmha.h, fixed by the
packed layout `total x num_heads x 4 x head_size` documented at the
`mha_fwd` signature. -/
def TOTAL_DIM : ℕ := 0

/-- Modelled from the spec: see `TOTAL_DIM`. -/
def H_DIM : ℕ := 1

/-- Modelled from the spec: see `TOTAL_DIM`. -/
def THREE_DIM : ℕ := 2

/-- Modelled from the spec: see `TOTAL_DIM`. -/
def D_DIM : ℕ := 3

/-- Device properties: compute capability major/minor (C `int`). -/
structure DeviceProps where
  major : ℤ
  minor : ℤ
deriving DecidableEq

/-- State of a CUDA generator: seed and philox counter offset. -/
structure GenState where
  seed : ℕ
  offset : ℕ
deriving DecidableEq

/-- gen->philox_cuda_state(increment): returns the (seed, current offset)
pair handed to the kernel and the advanced generator state. -/
def philox_cuda_state (g : GenState) (increment : ℕ) : (ℕ × ℕ) × GenState :=
  ((g.seed, g.offset), { g with offset := g.offset + increment })

/-- Events recorded by a forward call, in order: the configure launch, the
generator mutex acquire/release with the counter reservation between them,
and the compute kernel launch. -/
inductive Event where
  | configureLaunch
  | lockAcquire
  | reserveCounter (amount : ℕ)
  | lockRelease
  | kernelLaunch
deriving DecidableEq

/-- Tile planner, source lines 150-151: `int base_N = head_size == 128 ?
128 : 256;`. -/
def base_N (head_size : ℤ) : ℤ :=
  if head_size = 128 then 128 else 256

/-- Tile planner, source lines 152-159: the padded working sequence
length `seq_len`.  The `/` of the source is C `int` division, i.e.
truncation toward zero (`Int.tdiv`). -/
def plan_seq_len (max_seq_len head_size : ℤ) : ℤ :=
  if max_seq_len ≤ 128 then 128
  else if max_seq_len ≤ 256 then 256
  else ((max_seq_len + base_N head_size - 1).tdiv (base_N head_size)) * base_N head_size

/-- Tile planner, source line 160: `bool loop = seq_len > base_N;`. -/
def plan_loop (max_seq_len head_size : ℤ) : Bool :=
  decide (base_N head_size < plan_seq_len max_seq_len head_size)

/-- Source line 103: `uint32_t(std::floor(params.p_dropout *
4294967295.0))`, at exact-rational precision. -/
def p_dropout_to_uint32 (keep : ℚ) : ℕ :=
  (⌊keep * 4294967295⌋).toNat % 2 ^ 32

/-- Source line 104: `uint16_t(std::floor(params.p_dropout * 65535.0))`,
at exact-rational precision. -/
def p_dropout_to_uint16 (keep : ℚ) : ℕ :=
  (⌊keep * 65535⌋).toNat % 2 ^ 16

/-- The fields of Fused_multihead_attention_fprop_params that the host
layer sets (pointers are omitted: they carry no information in the model;
the `set_alpha` reduced-precision copies hold the same numeric values as
the ℚ fields recorded here).  `philox_args` is `none` while the structure
still holds the memset zero state. -/
structure Params where
  b : ℤ
  s : ℤ
  h : ℤ
  d : ℤ
  qkv_stride_in_elts : ℤ
  o_stride_in_elts : ℤ
  p_dropout : ℚ
  p_dropout_in_uint : ℕ
  p_dropout_in_uint16_t : ℕ
  rp_dropout : ℚ
  scale_bmm1f : ℚ
  scale_softmax : ℚ
  scale_bmm2 : ℚ
  scale_dropout : ℚ
  is_causal : Bool
  philox_args : Option (ℕ × ℕ)
deriving DecidableEq

/-- The parameter record built by `set_params` (source lines 33-110) when
its dropout check passes: scale_bmm1 is the caller-supplied softmax_scale
(line 90), scale_softmax and scale_bmm2 are 1 (lines 91-92), p_dropout is
re-purposed as the keep probability 1 - p (line 100), the quantized
thresholds follow lines 103-104, rp_dropout = 1 / keep (line 105) and
scale_dropout = rp_dropout (line 107). -/
def set_params_val (b s h d : ℤ) (p_dropout softmax_scale : ℚ) (is_causal : Bool) : Params :=
  { b := b
    s := s
    h := h
    d := d
    qkv_stride_in_elts := h * 4 * d
    o_stride_in_elts := h * d
    p_dropout := 1 - p_dropout
    p_dropout_in_uint := p_dropout_to_uint32 (1 - p_dropout)
    p_dropout_in_uint16_t := p_dropout_to_uint16 (1 - p_dropout)
    rp_dropout := 1 / (1 - p_dropout)
    scale_bmm1f := softmax_scale
    scale_softmax := 1
    scale_bmm2 := 1
    scale_dropout := 1 / (1 - p_dropout)
    is_causal := is_causal
    philox_args := none }

/-- set_params, source lines 33-110.  The TORCH_CHECK at line 106
(`p_dropout < 1.f`) aborts the call when it fails; since the routine is
otherwise pure, the check is modelled as the guard of the returned
record. -/
def set_params (b s h d : ℤ) (p_dropout softmax_scale : ℚ) (is_causal : Bool) :
    Except FwdError Params :=
  if p_dropout < 1 then .ok (set_params_val b s h d p_dropout softmax_scale is_causal)
  else .error .invalidDropoutProbability

/-- Everything a forward call produces besides errors: the returned vector
of tensors (in order), the list of all buffers it allocated (in allocation
order), the event trace, and the kernel parameter block. -/
structure FwdOutput where
  result : List OutTensor
  allocated : List OutTensor
  trace : List Event
  params : Params
deriving DecidableEq

/-- Success path of `mha_fwd` after all tensor validations (source lines
149-231): tile planning, buffer allocation, optional zero-fill,
`set_params` (whose dropout check can still fail), the configure launch,
the conditional generator lock and counter reservation, the kernel launch
and the assembly of the result vector.  The generator state after the
call is returned alongside the outputs. -/
def mha_fwd_core (qkvv cu_seqlens : ATTensor) (p_dropout : ℚ) (max_seq_len : ℤ)
    (softmax_scale : ℚ) (zero_tensors is_causal return_softmax : Bool)
    (gen : GenState) (elts_per_thread : ℕ) :
    Except FwdError (FwdOutput × GenState) :=
  let sizes := qkvv.shape
  let batch_size := cu_seqlens.numel - 1
  let total := sizes.getD TOTAL_DIM 0
  let num_heads := sizes.getD H_DIM 0
  let head_size := sizes.getD D_DIM 0
  let seq_len := plan_seq_len max_seq_len head_size
  let loop := plan_loop max_seq_len head_size
  -- Allocations, source lines 164-181.
  let ctx : OutTensor := { tag := .context, shape := [total, num_heads, head_size], fill := .uninit }
  let ctx2 : OutTensor := { tag := .context2, shape := [total, num_heads, head_size], fill := .uninit }
  let o_tmp : Option OutTensor :=
    if loop then some { tag := .oTmp, shape := [total, num_heads, head_size], fill := .uninit }
    else none
  let o2_tmp : Option OutTensor :=
    if loop then some { tag := .o2Tmp, shape := [total, num_heads, head_size], fill := .uninit }
    else none
  let softmax_lse : OutTensor :=
    { tag := .softmaxLse, shape := [batch_size, num_heads, seq_len], fill := .uninit }
  let s : Option OutTensor :=
    if return_softmax then
      some { tag := .sDiag, shape := [batch_size, num_heads, seq_len, seq_len], fill := .uninit }
    else none
  -- Zero-fill block, source lines 183-190.
  let ctx := if zero_tensors then { ctx with fill := Fill.zeros } else ctx
  let ctx2 := if zero_tensors then { ctx2 with fill := Fill.zeros } else ctx2
  let softmax_lse :=
    if zero_tensors then { softmax_lse with fill := Fill.negInf } else softmax_lse
  let o_tmp :=
    if zero_tensors then o_tmp.map (fun t => { t with fill := Fill.zeros }) else o_tmp
  let o2_tmp :=
    if zero_tensors then o2_tmp.map (fun t => { t with fill := Fill.zeros }) else o2_tmp
  let s := if zero_tensors then s.map (fun t => { t with fill := Fill.zeros }) else s
  match set_params batch_size seq_len num_heads head_size p_dropout softmax_scale is_causal with
  | .error e => .error e
  | .ok params0 =>
    -- run_fmha_fp16_sm80(launch_params, configure = true) reports the
    -- per-thread draw budget; counter_offset = elts_per_thread (line 218).
    let counter_offset := elts_per_thread
    -- Source lines 221-225: only under dropout, lock the generator mutex
    -- and reserve the counter range.
    let dropoutStep :=
      if 0 < p_dropout then
        let pg := philox_cuda_state gen counter_offset
        ({ params0 with philox_args := some pg.1 }, pg.2,
          [Event.lockAcquire, Event.reserveCounter counter_offset, Event.lockRelease])
      else (params0, gen, ([] : List Event))
    let trace := [Event.configureLaunch] ++ dropoutStep.2.2 ++ [Event.kernelLaunch]
    -- Result vector, source lines 229-231.
    let result := [ctx, ctx2, softmax_lse] ++ (if return_softmax then s.toList else [])
    let allocated := [ctx, ctx2] ++ o_tmp.toList ++ o2_tmp.toList ++ [softmax_lse] ++ s.toList
    .ok ({ result := result, allocated := allocated, trace := trace, params := dropoutStep.1 },
      dropoutStep.2.1)

/-- The TORCH_CHECK validation sequence of mha_fwd in source order (lines
124, 129-130, 132-133, 135-136, 140, 146, 147): the first failing check,
or `none` when all pass.  Each TORCH_CHECK(cond) appears as its condition,
with the checks nested exactly as they abort in sequence. -/
def mha_fwd_checks (dprops : DeviceProps) (qkvv cu_seqlens : ATTensor) : Option FwdError :=
  if dprops.major = 8 ∧ 0 ≤ dprops.minor then
    if qkvv.is_cuda then
      if cu_seqlens.is_cuda then
        if qkvv.is_contiguous then
          if cu_seqlens.is_contiguous then
            if cu_seqlens.dim = 1 then
              if qkvv.dim = 4 then
                if qkvv.shape.getD THREE_DIM 0 = 4 then
                  if 0 < cu_seqlens.numel - 1 then
                    if qkvv.shape.getD D_DIM 0 = 16 ∨ qkvv.shape.getD D_DIM 0 = 32 ∨
                        qkvv.shape.getD D_DIM 0 = 64 ∨ qkvv.shape.getD D_DIM 0 = 128 then
                      none
                    else some .unsupportedHeadDim
                  else some .invalidBatchLayout
                else some .badPackedAxis
              else some .qkvNotFourDim
            else some .seqlensNotOneDim
          else some .seqlensNotContiguous
        else some .qkvNotContiguous
      else some .seqlensNotOnDevice
    else some .qkvNotOnDevice
  else some .deviceCapabilityUnsupported

/-- mha_fwd, source lines 112-232: the TORCH_CHECK validations in source
order (`mha_fwd_checks`), then the success path `mha_fwd_core`.  The
generator argument models `gen_`; `default_gen` models the process-wide
default CUDA generator used when `gen_` is absent (line 192). -/
def mha_fwd (dprops : DeviceProps) (qkvv cu_seqlens : ATTensor) (p_dropout : ℚ)
    (max_seq_len : ℤ) (softmax_scale : ℚ) (zero_tensors is_causal return_softmax : Bool)
    (gen_ : Option GenState) (default_gen : GenState) (elts_per_thread : ℕ) :
    Except FwdError (FwdOutput × GenState) :=
  match mha_fwd_checks dprops qkvv cu_seqlens with
  | some err => .error err
  | none => mha_fwd_core qkvv cu_seqlens p_dropout max_seq_len softmax_scale
      zero_tensors is_causal return_softmax (gen_.getD default_gen) elts_per_thread

/-- The tensor vector a successful forward call returns. -/
def fwdResult (e : Except FwdError (FwdOutput × GenState)) : Option (List OutTensor) :=
  match e with
  | .ok p => some p.1.result
  | .error _ => none

/-- All buffers a successful forward call allocated. -/
def fwdAllocated (e : Except FwdError (FwdOutput × GenState)) : Option (List OutTensor) :=
  match e with
  | .ok p => some p.1.allocated
  | .error _ => none

/-- The event trace of a successful forward call. -/
def fwdTrace (e : Except FwdError (FwdOutput × GenState)) : Option (List Event) :=
  match e with
  | .ok p => some p.1.trace
  | .error _ => none

/-- The kernel parameter block of a successful forward call. -/
def fwdParams (e : Except FwdError (FwdOutput × GenState)) : Option Params :=
  match e with
  | .ok p => some p.1.params
  | .error _ => none

/-- The generator state after a successful forward call. -/
def fwdGenFinal (e : Except FwdError (FwdOutput × GenState)) : Option GenState :=
  match e with
  | .ok p => some p.2
  | .error _ => none

/-- A forward call's outputs with the generator state erased. -/
def fwdCore (e : Except FwdError (FwdOutput × GenState)) : Except FwdError FwdOutput :=
  match e with
  | .ok p => .ok p.1
  | .error err => .error err

/-- The six scale/dropout-derived rational fields of the parameter block:
keep probability, rescale factor, scale_bmm1, scale_softmax, scale_bmm2,
scale_dropout. -/
def scalesOf (P : Params) : ℚ × ℚ × ℚ × ℚ × ℚ × ℚ :=
  (P.p_dropout, P.rp_dropout, P.scale_bmm1f, P.scale_softmax, P.scale_bmm2, P.scale_dropout)

/-- The two quantized dropout thresholds of the parameter block. -/
def thresholdsOf (P : Params) : ℕ × ℕ :=
  (P.p_dropout_in_uint, P.p_dropout_in_uint16_t)

/-- Number of counter reservations in a trace. -/
def reserveCount (tr : List Event) : ℕ :=
  tr.countP (fun e => match e with | .reserveCounter _ => true | _ => false)

/-- Number of mutex acquisitions in a trace. -/
def lockCount (tr : List Event) : ℕ :=
  tr.countP (fun e => match e with | .lockAcquire => true | _ => false)

deriving instance DecidableEq for Except

/-- A device of the supported compute capability (SM 8.x). -/
def devOk : DeviceProps := { major := 8, minor := 0 }

/-- A device below the required capability (SM 7.5). -/
def dev75 : DeviceProps := { major := 7, minor := 5 }

/-- A well-formed packed QKV input: 8 tokens, 1 head, packed axis 4, head
size 16, on-device and contiguous. -/
def qkvOk : ATTensor :=
  { shape := [8, 1, 4, 16], is_cuda := true, is_contiguous := true, values := [] }

/-- A packed QKV input whose third axis is 3 instead of 4, otherwise
well formed. -/
def qkv3ax : ATTensor :=
  { shape := [8, 1, 3, 16], is_cuda := true, is_contiguous := true, values := [] }

/-- A packed QKV input with leading dimension 7 (7 total tokens). -/
def qkvTot7 : ATTensor :=
  { shape := [7, 1, 4, 16], is_cuda := true, is_contiguous := true, values := [] }

/-- A well-formed offsets tensor for two sequences of lengths 3 and 5
packed into 8 tokens. -/
def seqlensOk : ATTensor :=
  { shape := [3], is_cuda := true, is_contiguous := true, values := [0, 3, 8] }

/-- An offsets tensor whose values are not monotonically non-decreasing
and whose declared total token count (its last value, 2) disagrees with
the 7-token leading dimension of `qkvTot7`. -/
def seqlensBad : ATTensor :=
  { shape := [3], is_cuda := true, is_contiguous := true, values := [0, 5, 2] }

/-- An offsets tensor with a single element, i.e. batch_size = 0. -/
def seqlensOne : ATTensor :=
  { shape := [1], is_cuda := true, is_contiguous := true, values := [0] }

/-- A monotone offsets tensor agreeing with the 7-token `qkvTot7`. -/
def seqlensFix : ATTensor :=
  { shape := [3], is_cuda := true, is_contiguous := true, values := [0, 3, 7] }

/-- A concrete generator state. -/
def gen0 : GenState := { seed := 42, offset := 10 }

/-- A second concrete generator state, distinct from `gen0`. -/
def gen1 : GenState := { seed := 7, offset := 3 }

end StreamAttn

namespace StreamAttn

/-- Ceiling division over ℤ, expressed through the rational ceiling: for a
positive divisor, the rounded-up quotient equals the (add divisor minus
one, then divide) idiom used by the tile planner. -/
theorem ceil_div_int (m b : ℤ) (hb : 0 < b) :
    ⌈(m : ℚ) / (b : ℚ)⌉ = (m + b - 1) / b := by
  have hbq : (0 : ℚ) < (b : ℚ) := by exact_mod_cast hb
  have h0 := Int.ediv_add_emod (m + b - 1) b
  have hr0 : 0 ≤ (m + b - 1) % b := Int.emod_nonneg _ (ne_of_gt hb)
  have hr1 : (m + b - 1) % b < b := Int.emod_lt_of_pos _ hb
  have hA : b * ((m + b - 1) / b) - b < m := by omega
  have hB : m ≤ b * ((m + b - 1) / b) := by omega
  rw [Int.ceil_eq_iff]
  constructor
  · rw [lt_div_iff₀ hbq,
      show ((((m + b - 1) / b : ℤ) : ℚ) - 1) * (b : ℚ) = ((b * ((m + b - 1) / b) - b : ℤ) : ℚ) by
        push_cast; ring]
    exact_mod_cast hA
  · rw [div_le_iff₀ hbq,
      show (((m + b - 1) / b : ℤ) : ℚ) * (b : ℚ) = ((b * ((m + b - 1) / b) : ℤ) : ℚ) by
        push_cast; ring]
    exact_mod_cast hB

/-- Claim C1: for max_seq_len ≥ 1 and a supported head size, the planner
computes base_tile_width = 128 when head_size = 128 and 256 otherwise,
padded_seq_len = 128 when max_seq_len ≤ 128, 256 when max_seq_len ≤ 256,
and otherwise ceil(max_seq_len / base_tile_width) * base_tile_width, and
sets looped exactly when padded_seq_len exceeds base_tile_width. -/
theorem C1_tile_planner (max_seq_len head_size : ℤ) (h1 : 1 ≤ max_seq_len)
    (h2 : head_size = 16 ∨ head_size = 32 ∨ head_size = 64 ∨ head_size = 128) :
    base_N head_size = (if head_size = 128 then 128 else 256)
    ∧ plan_seq_len max_seq_len head_size =
        (if max_seq_len ≤ 128 then 128
         else if max_seq_len ≤ 256 then 256
         else ⌈(max_seq_len : ℚ) / (base_N head_size : ℚ)⌉ * base_N head_size)
    ∧ (plan_loop max_seq_len head_size = true ↔
        base_N head_size < plan_seq_len max_seq_len head_size) := by
  have hbpos : 0 < base_N head_size := by
    unfold base_N; split <;> norm_num
  refine ⟨rfl, ?_, by simp [plan_loop]⟩
  unfold plan_seq_len
  split
  · rfl
  · split
    · rfl
    · have hm : (0 : ℤ) ≤ max_seq_len + base_N head_size - 1 := by omega
      rw [Int.tdiv_eq_ediv hm (le_of_lt hbpos), ceil_div_int _ _ hbpos]

/-- For a keep probability in (0, 1], flooring keep * c stays within
[0, c], so the unsigned cast (reduction modulo c + 1) is the identity. -/
theorem floor_keep_mod (keep : ℚ) (hk0 : 0 < keep) (hk1 : keep ≤ 1) (c : ℕ) :
    (⌊keep * ((c : ℕ) : ℚ)⌋).toNat % (c + 1) = (⌊keep * ((c : ℕ) : ℚ)⌋).toNat := by
  apply Nat.mod_eq_of_lt
  have hub : ⌊keep * ((c : ℕ) : ℚ)⌋ ≤ (c : ℤ) := by
    calc ⌊keep * ((c : ℕ) : ℚ)⌋ ≤ ⌊((c : ℕ) : ℚ)⌋ := by
          apply Int.floor_le_floor
          nlinarith [Nat.cast_nonneg (α := ℚ) c]
    _ = (c : ℤ) := Int.floor_natCast c
  omega

/-- Claim C4 (amended): for p_dropout ∈ [0, 1) the quantized integer
thresholds equal floor((1-p) * (2^32 - 1)) and floor((1-p) * (2^16 - 1)):
the source multiplies the keep probability by 4294967295 = 2^32 - 1 and
65535 = 2^16 - 1, not by 2^32 and 2^16. -/
theorem C4_thresholds_amended (b s h d : ℤ) (p softmax_scale : ℚ) (ic : Bool)
    (h0 : 0 ≤ p) (h1 : p < 1) :
    (set_params b s h d p softmax_scale ic).map thresholdsOf
      = .ok ((⌊(1 - p) * (2 ^ 32 - 1 : ℚ)⌋).toNat, (⌊(1 - p) * (2 ^ 16 - 1 : ℚ)⌋).toNat) := by
  have hk0 : 0 < 1 - p := by linarith
  have hk1 : (1 : ℚ) - p ≤ 1 := by linarith
  unfold set_params
  rw [if_pos h1]
  simp only [Except.map, thresholdsOf, set_params_val, p_dropout_to_uint32, p_dropout_to_uint16]
  rw [show (4294967295 : ℚ) = ((4294967295 : ℕ) : ℚ) by norm_num,
    show (65535 : ℚ) = ((65535 : ℕ) : ℚ) by norm_num,
    show (2 : ℕ) ^ 32 = 4294967295 + 1 by norm_num,
    show (2 : ℕ) ^ 16 = 65535 + 1 by norm_num,
    floor_keep_mod _ hk0 hk1 4294967295, floor_keep_mod _ hk0 hk1 65535,
    show ((2 : ℚ) ^ 32 - 1) = ((4294967295 : ℕ) : ℚ) by norm_num,
    show ((2 : ℚ) ^ 16 - 1) = ((65535 : ℕ) : ℚ) by norm_num]

/-- Witness for C4 (amended) at p_dropout = 1/2. -/
theorem C4_thresholds_amended_witness :
    (set_params 2 128 1 16 (1/2) 1 false).map thresholdsOf
      = .ok ((⌊(1 - (1/2 : ℚ)) * (2 ^ 32 - 1 : ℚ)⌋).toNat,
          (⌊(1 - (1/2 : ℚ)) * (2 ^ 16 - 1 : ℚ)⌋).toNat) :=
  C4_thresholds_amended 2 128 1 16 (1/2) 1 false (by norm_num) (by norm_num)

/-- Claim C4 counterexample: at p_dropout = 1/2 the thresholds the code
derives are (2147483647, 32767), not the (2147483648, 32768) demanded by
floor((1-p) * 2^32) and floor((1-p) * 2^16). -/
theorem C4_counterexample :
    (set_params 2 128 1 16 (1/2) 1 false).map thresholdsOf
      ≠ .ok ((⌊(1 - (1/2 : ℚ)) * 2 ^ 32⌋).toNat, (⌊(1 - (1/2 : ℚ)) * 2 ^ 16⌋).toNat) := by
  have e1 : ⌊(1 - (1/2 : ℚ)) * 4294967295⌋ = 2147483647 := by
    rw [Int.floor_eq_iff]
    constructor <;> norm_num
  have e2 : ⌊(1 - (1/2 : ℚ)) * 2 ^ 32⌋ = 2147483648 := by
    rw [Int.floor_eq_iff]
    constructor <;> norm_num
  unfold set_params
  rw [if_pos (by norm_num : (1/2 : ℚ) < 1)]
  simp only [Except.map, thresholdsOf, set_params_val, p_dropout_to_uint32,
    p_dropout_to_uint16, e1, e2, ne_eq, Except.ok.injEq, Prod.mk.injEq, not_and]
  intro hfirst
  omega

/-- Claim C5: with p_dropout < 1 the parameter block records keep
probability 1 - p, rescale factor 1/(1-p), scale_bmm1 = the caller's
softmax_scale, scale_softmax = 1, scale_bmm2 = 1 and scale_dropout =
1/(1-p); with p_dropout ≥ 1 the call fails with
InvalidDropoutProbability. -/
theorem C5_scales (b s h d : ℤ) (p softmax_scale : ℚ) (ic : Bool) :
    (p < 1 → (set_params b s h d p softmax_scale ic).map scalesOf
        = .ok (1 - p, 1 / (1 - p), softmax_scale, 1, 1, 1 / (1 - p)))
    ∧ (1 ≤ p → set_params b s h d p softmax_scale ic = .error .invalidDropoutProbability) := by
  constructor
  · intro hp
    unfold set_params
    rw [if_pos hp]
    rfl
  · intro hp
    unfold set_params
    rw [if_neg (not_lt.mpr hp)]

/-- Witness for C5 at p_dropout = 1/2 (success side) and p_dropout = 2
(failure side). -/
theorem C5_scales_witness :
    (set_params 2 128 1 16 (1/2) 1 false).map scalesOf
        = .ok (1 - (1/2 : ℚ), 1 / (1 - (1/2 : ℚ)), 1, 1, 1, 1 / (1 - (1/2 : ℚ)))
    ∧ set_params 2 128 1 16 2 1 false = .error .invalidDropoutProbability :=
  ⟨(C5_scales 2 128 1 16 (1/2) 1 false).1 (by norm_num),
   (C5_scales 2 128 1 16 2 1 false).2 (by norm_num)⟩

/-- Witness for C1 at max_seq_len = 300, head_size = 128. -/
theorem C1_tile_planner_witness :
    base_N 128 = (if (128 : ℤ) = 128 then 128 else 256)
    ∧ plan_seq_len 300 128 =
        (if (300 : ℤ) ≤ 128 then 128
         else if (300 : ℤ) ≤ 256 then 256
         else ⌈((300 : ℤ) : ℚ) / (base_N 128 : ℚ)⌉ * base_N 128)
    ∧ (plan_loop 300 128 = true ↔ base_N 128 < plan_seq_len 300 128) :=
  C1_tile_planner 300 128 (by norm_num) (by norm_num)

end StreamAttn

namespace StreamAttn

/-- When every validated condition holds, the validation sequence reports
no failure. -/
theorem mha_fwd_checks_none (dprops : DeviceProps) (qkvv cu_seqlens : ATTensor)
    (h1 : dprops.major = 8) (h2 : 0 ≤ dprops.minor)
    (h3 : qkvv.is_cuda = true) (h4 : cu_seqlens.is_cuda = true)
    (h5 : qkvv.is_contiguous = true) (h6 : cu_seqlens.is_contiguous = true)
    (h7 : cu_seqlens.dim = 1) (h8 : qkvv.dim = 4)
    (h9 : qkvv.shape.getD THREE_DIM 0 = 4)
    (h10 : 0 < cu_seqlens.numel - 1)
    (h11 : qkvv.shape.getD D_DIM 0 = 16 ∨ qkvv.shape.getD D_DIM 0 = 32 ∨
      qkvv.shape.getD D_DIM 0 = 64 ∨ qkvv.shape.getD D_DIM 0 = 128) :
    mha_fwd_checks dprops qkvv cu_seqlens = none := by
  unfold mha_fwd_checks
  rw [if_pos ⟨h1, h2⟩, if_pos h3, if_pos h4, if_pos h5, if_pos h6, if_pos h7, if_pos h8,
    if_pos h9, if_pos h10, if_pos h11]

/-- When every tensor validation of `mha_fwd` passes, the call reduces to
the success path `mha_fwd_core` with the supplied (or default)
generator. -/
theorem mha_fwd_eq_core (dprops : DeviceProps) (qkvv cu_seqlens : ATTensor) (p_dropout : ℚ)
    (max_seq_len : ℤ) (softmax_scale : ℚ) (zero_tensors is_causal return_softmax : Bool)
    (gen_ : Option GenState) (default_gen : GenState) (elts_per_thread : ℕ)
    (h1 : dprops.major = 8) (h2 : 0 ≤ dprops.minor)
    (h3 : qkvv.is_cuda = true) (h4 : cu_seqlens.is_cuda = true)
    (h5 : qkvv.is_contiguous = true) (h6 : cu_seqlens.is_contiguous = true)
    (h7 : cu_seqlens.dim = 1) (h8 : qkvv.dim = 4)
    (h9 : qkvv.shape.getD THREE_DIM 0 = 4)
    (h10 : 0 < cu_seqlens.numel - 1)
    (h11 : qkvv.shape.getD D_DIM 0 = 16 ∨ qkvv.shape.getD D_DIM 0 = 32 ∨
      qkvv.shape.getD D_DIM 0 = 64 ∨ qkvv.shape.getD D_DIM 0 = 128) :
    mha_fwd dprops qkvv cu_seqlens p_dropout max_seq_len softmax_scale zero_tensors is_causal
      return_softmax gen_ default_gen elts_per_thread
    = mha_fwd_core qkvv cu_seqlens p_dropout max_seq_len softmax_scale zero_tensors is_causal
      return_softmax (gen_.getD default_gen) elts_per_thread := by
  unfold mha_fwd
  rw [mha_fwd_checks_none dprops qkvv cu_seqlens h1 h2 h3 h4 h5 h6 h7 h8 h9 h10 h11]

/-- Event trace of the success path: configure launch, then (only under
dropout) mutex acquire, counter reservation of elts_per_thread and mutex
release, then the kernel launch. -/
theorem core_trace (qkvv cu_seqlens : ATTensor) (p : ℚ) (m : ℤ) (ss : ℚ)
    (zt ic rs : Bool) (g : GenState) (e : ℕ) (hp : p < 1) :
    fwdTrace (mha_fwd_core qkvv cu_seqlens p m ss zt ic rs g e)
      = some (if 0 < p then
          [Event.configureLaunch, Event.lockAcquire, Event.reserveCounter e,
            Event.lockRelease, Event.kernelLaunch]
        else [Event.configureLaunch, Event.kernelLaunch]) := by
  simp only [mha_fwd_core, set_params]
  rw [if_pos hp]
  by_cases hd : 0 < p <;> simp [hd, fwdTrace]

/-- Generator state after the success path: advanced by elts_per_thread
under dropout, untouched otherwise. -/
theorem core_gen (qkvv cu_seqlens : ATTensor) (p : ℚ) (m : ℤ) (ss : ℚ)
    (zt ic rs : Bool) (g : GenState) (e : ℕ) (hp : p < 1) :
    fwdGenFinal (mha_fwd_core qkvv cu_seqlens p m ss zt ic rs g e)
      = some (if 0 < p then { g with offset := g.offset + e } else g) := by
  simp only [mha_fwd_core, set_params]
  rw [if_pos hp]
  by_cases hd : 0 < p <;> simp [hd, fwdGenFinal, philox_cuda_state]

/-- Parameter block of the success path: `set_params_val` of the derived
sizes, with the reserved philox state recorded only under dropout. -/
theorem core_params (qkvv cu_seqlens : ATTensor) (p : ℚ) (m : ℤ) (ss : ℚ)
    (zt ic rs : Bool) (g : GenState) (e : ℕ) (hp : p < 1) :
    fwdParams (mha_fwd_core qkvv cu_seqlens p m ss zt ic rs g e)
      = some (if 0 < p then
          { set_params_val (cu_seqlens.numel - 1) (plan_seq_len m (qkvv.shape.getD D_DIM 0))
              (qkvv.shape.getD H_DIM 0) (qkvv.shape.getD D_DIM 0) p ss ic with
            philox_args := some (g.seed, g.offset) }
        else set_params_val (cu_seqlens.numel - 1) (plan_seq_len m (qkvv.shape.getD D_DIM 0))
          (qkvv.shape.getD H_DIM 0) (qkvv.shape.getD D_DIM 0) p ss ic) := by
  simp only [mha_fwd_core, set_params]
  rw [if_pos hp]
  by_cases hd : 0 < p <;> simp [hd, fwdParams, philox_cuda_state]

/-- Result vector of the success path: Context, SecondaryContext,
LogSumExp, plus the diagnostic matrix exactly when requested. -/
theorem core_result (qkvv cu_seqlens : ATTensor) (p : ℚ) (m : ℤ) (ss : ℚ)
    (zt ic rs : Bool) (g : GenState) (e : ℕ) (hp : p < 1) :
    fwdResult (mha_fwd_core qkvv cu_seqlens p m ss zt ic rs g e)
      = some ([{ tag := BufTag.context,
                 shape := [qkvv.shape.getD TOTAL_DIM 0, qkvv.shape.getD H_DIM 0,
                   qkvv.shape.getD D_DIM 0],
                 fill := if zt then Fill.zeros else Fill.uninit },
               { tag := BufTag.context2,
                 shape := [qkvv.shape.getD TOTAL_DIM 0, qkvv.shape.getD H_DIM 0,
                   qkvv.shape.getD D_DIM 0],
                 fill := if zt then Fill.zeros else Fill.uninit },
               { tag := BufTag.softmaxLse,
                 shape := [cu_seqlens.numel - 1, qkvv.shape.getD H_DIM 0,
                   plan_seq_len m (qkvv.shape.getD D_DIM 0)],
                 fill := if zt then Fill.negInf else Fill.uninit }]
          ++ (if rs then
              [{ tag := BufTag.sDiag,
                 shape := [cu_seqlens.numel - 1, qkvv.shape.getD H_DIM 0,
                   plan_seq_len m (qkvv.shape.getD D_DIM 0),
                   plan_seq_len m (qkvv.shape.getD D_DIM 0)],
                 fill := if zt then Fill.zeros else Fill.uninit }]
            else [])) := by
  simp only [mha_fwd_core, set_params]
  rw [if_pos hp]
  cases zt <;> cases rs <;> by_cases hd : 0 < p <;> simp [hd, fwdResult]

/-- Buffers allocated by the success path, in allocation order, with the
looped-mode temporaries present exactly when the planner looped and the
diagnostic matrix exactly when requested. -/
theorem core_allocated (qkvv cu_seqlens : ATTensor) (p : ℚ) (m : ℤ) (ss : ℚ)
    (zt ic rs : Bool) (g : GenState) (e : ℕ) (hp : p < 1) :
    fwdAllocated (mha_fwd_core qkvv cu_seqlens p m ss zt ic rs g e)
      = some ([{ tag := BufTag.context,
                 shape := [qkvv.shape.getD TOTAL_DIM 0, qkvv.shape.getD H_DIM 0,
                   qkvv.shape.getD D_DIM 0],
                 fill := if zt then Fill.zeros else Fill.uninit },
               { tag := BufTag.context2,
                 shape := [qkvv.shape.getD TOTAL_DIM 0, qkvv.shape.getD H_DIM 0,
                   qkvv.shape.getD D_DIM 0],
                 fill := if zt then Fill.zeros else Fill.uninit }]
          ++ (if plan_loop m (qkvv.shape.getD D_DIM 0) then
              [{ tag := BufTag.oTmp,
                 shape := [qkvv.shape.getD TOTAL_DIM 0, qkvv.shape.getD H_DIM 0,
                   qkvv.shape.getD D_DIM 0],
                 fill := if zt then Fill.zeros else Fill.uninit },
               { tag := BufTag.o2Tmp,
                 shape := [qkvv.shape.getD TOTAL_DIM 0, qkvv.shape.getD H_DIM 0,
                   qkvv.shape.getD D_DIM 0],
                 fill := if zt then Fill.zeros else Fill.uninit }]
            else [])
          ++ [{ tag := BufTag.softmaxLse,
                shape := [cu_seqlens.numel - 1, qkvv.shape.getD H_DIM 0,
                  plan_seq_len m (qkvv.shape.getD D_DIM 0)],
                fill := if zt then Fill.negInf else Fill.uninit }]
          ++ (if rs then
              [{ tag := BufTag.sDiag,
                 shape := [cu_seqlens.numel - 1, qkvv.shape.getD H_DIM 0,
                   plan_seq_len m (qkvv.shape.getD D_DIM 0),
                   plan_seq_len m (qkvv.shape.getD D_DIM 0)],
                 fill := if zt then Fill.zeros else Fill.uninit }]
            else [])) := by
  simp only [mha_fwd_core, set_params]
  rw [if_pos hp]
  cases zt <;> cases rs <;> cases hl : plan_loop m (qkvv.shape.getD D_DIM 0) <;>
    by_cases hd : 0 < p <;> simp [hd, hl, fwdAllocated]

/-- The success path can only fail through the dropout check of
`set_params`. -/
theorem mha_fwd_core_error_eq (qkvv cu_seqlens : ATTensor) (p : ℚ) (m : ℤ) (ss : ℚ)
    (zt ic rs : Bool) (g : GenState) (e : ℕ) (err : FwdError)
    (h : mha_fwd_core qkvv cu_seqlens p m ss zt ic rs g e = .error err) :
    err = FwdError.invalidDropoutProbability := by
  simp only [mha_fwd_core, set_params] at h
  by_cases hp : p < 1
  · rw [if_pos hp] at h
    by_cases hd : 0 < p <;> simp [hd] at h
  · rw [if_neg hp] at h
    simp at h
    exact h.symm

/-- Claim C7 (amended): on every validated forward call the event trace
is configure launch, then, exactly when dropout is enabled (p_dropout >
0), a single counter reservation of elts_per_thread between the mutex
acquire and release, then the kernel launch; with dropout disabled no
reservation happens. -/
theorem C7_counter_reservation_amended (dprops : DeviceProps) (qkvv cu_seqlens : ATTensor)
    (p : ℚ) (m : ℤ) (ss : ℚ) (zt ic rs : Bool) (gen_ : Option GenState) (dg : GenState) (e : ℕ)
    (h1 : dprops.major = 8) (h2 : 0 ≤ dprops.minor)
    (h3 : qkvv.is_cuda = true) (h4 : cu_seqlens.is_cuda = true)
    (h5 : qkvv.is_contiguous = true) (h6 : cu_seqlens.is_contiguous = true)
    (h7 : cu_seqlens.dim = 1) (h8 : qkvv.dim = 4)
    (h9 : qkvv.shape.getD THREE_DIM 0 = 4)
    (h10 : 0 < cu_seqlens.numel - 1)
    (h11 : qkvv.shape.getD D_DIM 0 = 16 ∨ qkvv.shape.getD D_DIM 0 = 32 ∨
      qkvv.shape.getD D_DIM 0 = 64 ∨ qkvv.shape.getD D_DIM 0 = 128)
    (hp : p < 1) :
    fwdTrace (mha_fwd dprops qkvv cu_seqlens p m ss zt ic rs gen_ dg e)
      = some (if 0 < p then
          [Event.configureLaunch, Event.lockAcquire, Event.reserveCounter e,
            Event.lockRelease, Event.kernelLaunch]
        else [Event.configureLaunch, Event.kernelLaunch]) := by
  rw [mha_fwd_eq_core dprops qkvv cu_seqlens p m ss zt ic rs gen_ dg e
    h1 h2 h3 h4 h5 h6 h7 h8 h9 h10 h11]
  exact core_trace qkvv cu_seqlens p m ss zt ic rs (gen_.getD dg) e hp

/-- Witness for C7 (amended) at p_dropout = 1/2 on a validated call. -/
theorem C7_counter_reservation_amended_witness :
    fwdTrace (mha_fwd devOk qkvOk seqlensOk (mkRat 1 2) 8 1 false false false
        (some gen0) gen0 4)
      = some (if 0 < mkRat 1 2 then
          [Event.configureLaunch, Event.lockAcquire, Event.reserveCounter 4,
            Event.lockRelease, Event.kernelLaunch]
        else [Event.configureLaunch, Event.kernelLaunch]) :=
  C7_counter_reservation_amended devOk qkvOk seqlensOk (mkRat 1 2) 8 1 false false false
    (some gen0) gen0 4 rfl (by decide) rfl rfl rfl rfl rfl rfl (by decide) (by decide)
    (by decide) (by decide)

/-- Claim C7 counterexample: a successful forward call with p_dropout = 0
reserves the dropout counter zero times, not exactly once. -/
theorem C7_counterexample :
    (fwdTrace (mha_fwd devOk qkvOk seqlensOk 0 8 1 false false false (some gen0) gen0 4)).map
        reserveCount = some 0
    ∧ (fwdTrace (mha_fwd devOk qkvOk seqlensOk 0 8 1 false false false (some gen0) gen0 4)).map
        reserveCount ≠ some 1 := by
  constructor <;> decide

/-- Claim C6: on every validated forward call, when the
zero-initialization flag is set the LogSumExp buffer is pre-filled with
negative infinity and Context, SecondaryContext, the looped-mode
temporaries (when allocated) and the diagnostic softmax buffer (when
requested) are pre-filled with zero; with the flag clear every buffer is
left uninitialised. -/
theorem C6_zero_fill (dprops : DeviceProps) (qkvv cu_seqlens : ATTensor)
    (p : ℚ) (m : ℤ) (ss : ℚ) (zt ic rs : Bool) (gen_ : Option GenState) (dg : GenState) (e : ℕ)
    (h1 : dprops.major = 8) (h2 : 0 ≤ dprops.minor)
    (h3 : qkvv.is_cuda = true) (h4 : cu_seqlens.is_cuda = true)
    (h5 : qkvv.is_contiguous = true) (h6 : cu_seqlens.is_contiguous = true)
    (h7 : cu_seqlens.dim = 1) (h8 : qkvv.dim = 4)
    (h9 : qkvv.shape.getD THREE_DIM 0 = 4)
    (h10 : 0 < cu_seqlens.numel - 1)
    (h11 : qkvv.shape.getD D_DIM 0 = 16 ∨ qkvv.shape.getD D_DIM 0 = 32 ∨
      qkvv.shape.getD D_DIM 0 = 64 ∨ qkvv.shape.getD D_DIM 0 = 128)
    (hp : p < 1) :
    (fwdAllocated (mha_fwd dprops qkvv cu_seqlens p m ss zt ic rs gen_ dg e)).map
        (List.map (fun t => (t.tag, t.fill)))
      = some ([(BufTag.context, if zt then Fill.zeros else Fill.uninit),
               (BufTag.context2, if zt then Fill.zeros else Fill.uninit)]
          ++ (if plan_loop m (qkvv.shape.getD D_DIM 0) then
              [(BufTag.oTmp, if zt then Fill.zeros else Fill.uninit),
               (BufTag.o2Tmp, if zt then Fill.zeros else Fill.uninit)]
            else [])
          ++ [(BufTag.softmaxLse, if zt then Fill.negInf else Fill.uninit)]
          ++ (if rs then [(BufTag.sDiag, if zt then Fill.zeros else Fill.uninit)] else [])) := by
  rw [mha_fwd_eq_core dprops qkvv cu_seqlens p m ss zt ic rs gen_ dg e
    h1 h2 h3 h4 h5 h6 h7 h8 h9 h10 h11,
    core_allocated qkvv cu_seqlens p m ss zt ic rs (gen_.getD dg) e hp]
  cases zt <;> cases rs <;> cases hl : plan_loop m (qkvv.shape.getD D_DIM 0) <;> simp [hl]

/-- Witness for C6 with the zero-initialization flag set and diagnostics
requested. -/
theorem C6_zero_fill_witness :
    (fwdAllocated (mha_fwd devOk qkvOk seqlensOk 0 8 1 true false true none gen0 4)).map
        (List.map (fun t => (t.tag, t.fill)))
      = some ([(BufTag.context, if true then Fill.zeros else Fill.uninit),
               (BufTag.context2, if true then Fill.zeros else Fill.uninit)]
          ++ (if plan_loop 8 (qkvOk.shape.getD D_DIM 0) then
              [(BufTag.oTmp, if true then Fill.zeros else Fill.uninit),
               (BufTag.o2Tmp, if true then Fill.zeros else Fill.uninit)]
            else [])
          ++ [(BufTag.softmaxLse, if true then Fill.negInf else Fill.uninit)]
          ++ (if true then [(BufTag.sDiag, if true then Fill.zeros else Fill.uninit)]
            else [])) :=
  C6_zero_fill devOk qkvOk seqlensOk 0 8 1 true false true none gen0 4
    rfl (by decide) rfl rfl rfl rfl rfl rfl (by decide) (by decide) (by decide) (by decide)

/-- Claim C8: every validated forward call returns exactly Context,
SecondaryContext and LogSumExp in that order, with the diagnostic
probability matrix of shape [batch_size, num_heads, padded_seq_len,
padded_seq_len] appended exactly when diagnostics are requested, and that
matrix is never among the allocated buffers otherwise. -/
theorem C8_result_assembly (dprops : DeviceProps) (qkvv cu_seqlens : ATTensor)
    (p : ℚ) (m : ℤ) (ss : ℚ) (zt ic rs : Bool) (gen_ : Option GenState) (dg : GenState) (e : ℕ)
    (h1 : dprops.major = 8) (h2 : 0 ≤ dprops.minor)
    (h3 : qkvv.is_cuda = true) (h4 : cu_seqlens.is_cuda = true)
    (h5 : qkvv.is_contiguous = true) (h6 : cu_seqlens.is_contiguous = true)
    (h7 : cu_seqlens.dim = 1) (h8 : qkvv.dim = 4)
    (h9 : qkvv.shape.getD THREE_DIM 0 = 4)
    (h10 : 0 < cu_seqlens.numel - 1)
    (h11 : qkvv.shape.getD D_DIM 0 = 16 ∨ qkvv.shape.getD D_DIM 0 = 32 ∨
      qkvv.shape.getD D_DIM 0 = 64 ∨ qkvv.shape.getD D_DIM 0 = 128)
    (hp : p < 1) :
    (fwdResult (mha_fwd dprops qkvv cu_seqlens p m ss zt ic rs gen_ dg e)).map
        (List.map OutTensor.tag)
      = some ([BufTag.context, BufTag.context2, BufTag.softmaxLse]
          ++ (if rs then [BufTag.sDiag] else []))
    ∧ (fwdResult (mha_fwd dprops qkvv cu_seqlens p m ss zt ic rs gen_ dg e)).map
        (List.filterMap (fun t => if t.tag = BufTag.sDiag then some t.shape else none))
      = some (if rs then
          [[cu_seqlens.numel - 1, qkvv.shape.getD H_DIM 0,
            plan_seq_len m (qkvv.shape.getD D_DIM 0), plan_seq_len m (qkvv.shape.getD D_DIM 0)]]
        else [])
    ∧ (fwdAllocated (mha_fwd dprops qkvv cu_seqlens p m ss zt ic rs gen_ dg e)).map
        (fun l => l.countP (fun t => decide (t.tag = BufTag.sDiag)))
      = some (if rs then 1 else 0) := by
  rw [mha_fwd_eq_core dprops qkvv cu_seqlens p m ss zt ic rs gen_ dg e
    h1 h2 h3 h4 h5 h6 h7 h8 h9 h10 h11,
    core_result qkvv cu_seqlens p m ss zt ic rs (gen_.getD dg) e hp,
    core_allocated qkvv cu_seqlens p m ss zt ic rs (gen_.getD dg) e hp]
  refine ⟨?_, ?_, ?_⟩ <;> cases zt <;> cases rs <;>
    cases hl : plan_loop m (qkvv.shape.getD D_DIM 0) <;> simp [hl]

/-- Witness for C8 with diagnostics requested. -/
theorem C8_result_assembly_witness :
    (fwdResult (mha_fwd devOk qkvOk seqlensOk 0 8 1 false false true none gen0 4)).map
        (List.map OutTensor.tag)
      = some ([BufTag.context, BufTag.context2, BufTag.softmaxLse]
          ++ (if true then [BufTag.sDiag] else []))
    ∧ (fwdResult (mha_fwd devOk qkvOk seqlensOk 0 8 1 false false true none gen0 4)).map
        (List.filterMap (fun t => if t.tag = BufTag.sDiag then some t.shape else none))
      = some (if true then
          [[seqlensOk.numel - 1, qkvOk.shape.getD H_DIM 0,
            plan_seq_len 8 (qkvOk.shape.getD D_DIM 0), plan_seq_len 8 (qkvOk.shape.getD D_DIM 0)]]
        else [])
    ∧ (fwdAllocated (mha_fwd devOk qkvOk seqlensOk 0 8 1 false false true none gen0 4)).map
        (fun l => l.countP (fun t => decide (t.tag = BufTag.sDiag)))
      = some (if true then 1 else 0) :=
  C8_result_assembly devOk qkvOk seqlensOk 0 8 1 false false true none gen0 4
    rfl (by decide) rfl rfl rfl rfl rfl rfl (by decide) (by decide) (by decide) (by decide)

/-- A forward call fails with a given error other than the dropout error
exactly when the validation sequence reports that error. -/
theorem mha_fwd_error_iff (dprops : DeviceProps) (qkvv cu_seqlens : ATTensor)
    (p : ℚ) (m : ℤ) (ss : ℚ) (zt ic rs : Bool) (gen_ : Option GenState) (dg : GenState)
    (e : ℕ) (err : FwdError) (hne : err ≠ FwdError.invalidDropoutProbability) :
    mha_fwd dprops qkvv cu_seqlens p m ss zt ic rs gen_ dg e = .error err
      ↔ mha_fwd_checks dprops qkvv cu_seqlens = some err := by
  unfold mha_fwd
  cases hchk : mha_fwd_checks dprops qkvv cu_seqlens with
  | none =>
    constructor
    · intro hc
      exact absurd (mha_fwd_core_error_eq _ _ _ _ _ _ _ _ _ _ _ hc) hne
    · intro hc
      cases hc
  | some e2 =>
    simp

/-- On a capable device the validation sequence never reports the
device-capability error. -/
theorem checks_no_dev (dprops : DeviceProps) (qkvv cu_seqlens : ATTensor)
    (h : dprops.major = 8 ∧ 0 ≤ dprops.minor) :
    mha_fwd_checks dprops qkvv cu_seqlens ≠ some FwdError.deviceCapabilityUnsupported := by
  unfold mha_fwd_checks
  rw [if_pos h]
  repeat' split
  all_goals decide

/-- Once the preceding checks pass, the validation sequence reports
badPackedAxis exactly when the third axis differs from 4. -/
theorem checks_bad_iff (dprops : DeviceProps) (qkvv cu_seqlens : ATTensor)
    (h1 : dprops.major = 8) (h2 : 0 ≤ dprops.minor)
    (h3 : qkvv.is_cuda = true) (h4 : cu_seqlens.is_cuda = true)
    (h5 : qkvv.is_contiguous = true) (h6 : cu_seqlens.is_contiguous = true)
    (h7 : cu_seqlens.dim = 1) (h8 : qkvv.dim = 4) :
    mha_fwd_checks dprops qkvv cu_seqlens = some FwdError.badPackedAxis
      ↔ ¬(qkvv.shape.getD THREE_DIM 0 = 4) := by
  unfold mha_fwd_checks
  rw [if_pos ⟨h1, h2⟩, if_pos h3, if_pos h4, if_pos h5, if_pos h6, if_pos h7, if_pos h8]
  by_cases hax : qkvv.shape.getD THREE_DIM 0 = 4
  · rw [if_pos hax]
    constructor
    · intro hc
      split at hc
      · split at hc
        · simp_all
        · simp_all
      · simp_all
    · intro hcon
      exact absurd hax hcon
  · rw [if_neg hax]
    exact iff_of_true rfl hax

/-- Claim C2 (amended): for every on-device, contiguous input with
1-dimensional offsets and 4-dimensional QKV, the third-axis validation
succeeds if and only if the third axis equals 4 — a packed-vector-count
of 3 is rejected like any other size. -/
theorem C2_third_axis_amended (dprops : DeviceProps) (qkvv cu_seqlens : ATTensor)
    (p : ℚ) (m : ℤ) (ss : ℚ) (zt ic rs : Bool) (gen_ : Option GenState) (dg : GenState) (e : ℕ)
    (h1 : dprops.major = 8) (h2 : 0 ≤ dprops.minor)
    (h3 : qkvv.is_cuda = true) (h4 : cu_seqlens.is_cuda = true)
    (h5 : qkvv.is_contiguous = true) (h6 : cu_seqlens.is_contiguous = true)
    (h7 : cu_seqlens.dim = 1) (h8 : qkvv.dim = 4) :
    (mha_fwd dprops qkvv cu_seqlens p m ss zt ic rs gen_ dg e ≠ .error .badPackedAxis)
      ↔ qkvv.shape.getD THREE_DIM 0 = 4 := by
  rw [Ne, mha_fwd_error_iff dprops qkvv cu_seqlens p m ss zt ic rs gen_ dg e
      FwdError.badPackedAxis (by decide),
    checks_bad_iff dprops qkvv cu_seqlens h1 h2 h3 h4 h5 h6 h7 h8]
  exact not_not

/-- Claim C2 counterexample: a 4-dimensional contiguous on-device QKV
input whose third axis is 3 is rejected by the third-axis validation. -/
theorem C2_counterexample :
    mha_fwd devOk qkv3ax seqlensOk 0 8 1 false false false none gen0 4
      = .error .badPackedAxis := by
  decide

/-- Witness for C2 (amended) on a well-formed input with third axis 4. -/
theorem C2_third_axis_amended_witness :
    (mha_fwd devOk qkvOk seqlensOk 0 8 1 false false false none gen0 4
        ≠ .error .badPackedAxis)
      ↔ qkvOk.shape.getD THREE_DIM 0 = 4 :=
  C2_third_axis_amended devOk qkvOk seqlensOk 0 8 1 false false false none gen0 4
    rfl (by decide) rfl rfl rfl rfl rfl rfl

/-- Claim C3 (amended): of the three conditions only batch_size =
len(offsets) - 1 > 0 is validated (failing with InvalidBatchLayout before
any work is dispatched); monotonicity of the offsets and agreement of the
declared total with the QKV leading dimension are not checked — the
validation and the whole call are independent of the element values of
the offsets tensor. -/
theorem C3_batch_validation_amended (dprops : DeviceProps) (qkvv cu_seqlens : ATTensor)
    (sh : List ℤ) (cc cg : Bool) (v1 v2 : List ℤ)
    (p : ℚ) (m : ℤ) (ss : ℚ) (zt ic rs : Bool) (gen_ : Option GenState) (dg : GenState)
    (e : ℕ) :
    ((dprops.major = 8 ∧ 0 ≤ dprops.minor) → qkvv.is_cuda = true →
      cu_seqlens.is_cuda = true → qkvv.is_contiguous = true →
      cu_seqlens.is_contiguous = true → cu_seqlens.dim = 1 → qkvv.dim = 4 →
      qkvv.shape.getD THREE_DIM 0 = 4 → cu_seqlens.numel - 1 ≤ 0 →
      mha_fwd dprops qkvv cu_seqlens p m ss zt ic rs gen_ dg e
        = .error .invalidBatchLayout)
    ∧ mha_fwd dprops qkvv { shape := sh, is_cuda := cc, is_contiguous := cg, values := v1 }
        p m ss zt ic rs gen_ dg e
      = mha_fwd dprops qkvv { shape := sh, is_cuda := cc, is_contiguous := cg, values := v2 }
        p m ss zt ic rs gen_ dg e := by
  constructor
  · intro hdev h3 h4 h5 h6 h7 h8 h9 h10
    unfold mha_fwd mha_fwd_checks
    rw [if_pos hdev, if_pos h3, if_pos h4, if_pos h5, if_pos h6, if_pos h7, if_pos h8,
      if_pos h9, if_neg (not_lt.mpr h10)]
  · rfl

/-- Claim C3 counterexample: a forward call whose offsets [0, 5, 2] are
not monotone and declare a total of 2 tokens against a 7-token QKV buffer
still succeeds — neither condition is validated. -/
theorem C3_counterexample :
    (fwdTrace (mha_fwd devOk qkvTot7 seqlensBad 0 8 1 false false false
        none gen0 4)).isSome = true := by
  decide

/-- Witness for C3 (amended): a batch_size = 0 call fails with
InvalidBatchLayout, and the call result does not depend on the offsets
values. -/
theorem C3_batch_validation_amended_witness :
    mha_fwd devOk qkvOk seqlensOne 0 8 1 false false false none gen0 4
      = .error .invalidBatchLayout
    ∧ mha_fwd devOk qkvTot7 seqlensBad 0 8 1 false false false none gen0 4
      = mha_fwd devOk qkvTot7 seqlensFix 0 8 1 false false false none gen0 4 :=
  ⟨(C3_batch_validation_amended devOk qkvOk seqlensOne [1] true true [] []
      0 8 1 false false false none gen0 4).1
      (by decide) rfl rfl rfl rfl rfl rfl (by decide) (by decide),
   (C3_batch_validation_amended devOk qkvTot7 qkvTot7 [3] true true [0, 5, 2] [0, 3, 7]
      0 8 1 false false false none gen0 4).2⟩

/-- Claim C9 (amended): the core forward entry point itself checks the
compute capability first — whenever the device is not SM 8.x it fails
with DeviceCapabilityUnsupported for every input, and on an SM 8.x device
that error is never returned. -/
theorem C9_capability_check_amended (dprops : DeviceProps) (qkvv cu_seqlens : ATTensor)
    (p : ℚ) (m : ℤ) (ss : ℚ) (zt ic rs : Bool) (gen_ : Option GenState) (dg : GenState)
    (e : ℕ) :
    (¬(dprops.major = 8 ∧ 0 ≤ dprops.minor) →
      mha_fwd dprops qkvv cu_seqlens p m ss zt ic rs gen_ dg e
        = .error .deviceCapabilityUnsupported)
    ∧ ((dprops.major = 8 ∧ 0 ≤ dprops.minor) →
      mha_fwd dprops qkvv cu_seqlens p m ss zt ic rs gen_ dg e
        ≠ .error .deviceCapabilityUnsupported) := by
  constructor
  · intro h
    unfold mha_fwd mha_fwd_checks
    rw [if_neg h]
  · intro h hc
    exact checks_no_dev dprops qkvv cu_seqlens h
      ((mha_fwd_error_iff dprops qkvv cu_seqlens p m ss zt ic rs gen_ dg e
        FwdError.deviceCapabilityUnsupported (by decide)).mp hc)

/-- Claim C9 counterexample: on a compute-capability 7.5 device the core
forward entry point itself fails with DeviceCapabilityUnsupported, so the
capability check is not left to the excluded host wrapper. -/
theorem C9_counterexample :
    mha_fwd dev75 qkvOk seqlensOk 0 8 1 false false false none gen0 4
      = .error .deviceCapabilityUnsupported := by
  decide

/-- Witness for C9 (amended) on a 7.5 device and an 8.0 device. -/
theorem C9_capability_check_amended_witness :
    mha_fwd dev75 qkvOk seqlensOk 0 8 1 false false false none gen0 4
      = .error .deviceCapabilityUnsupported
    ∧ mha_fwd devOk qkvOk seqlensOk 0 8 1 false false false none gen0 4
      ≠ .error .deviceCapabilityUnsupported :=
  ⟨(C9_capability_check_amended dev75 qkvOk seqlensOk 0 8 1 false false false
      none gen0 4).1 (by decide),
   (C9_capability_check_amended devOk qkvOk seqlensOk 0 8 1 false false false
      none gen0 4).2 (by decide)⟩

/-- With p_dropout = 0 the success path ignores the generator except for
returning it untouched. -/
theorem core_zero_gen_irrel (qkvv cu_seqlens : ATTensor) (m : ℤ) (ss : ℚ)
    (zt ic rs : Bool) (gA gB : GenState) (e : ℕ) :
    fwdCore (mha_fwd_core qkvv cu_seqlens 0 m ss zt ic rs gA e)
      = fwdCore (mha_fwd_core qkvv cu_seqlens 0 m ss zt ic rs gB e) := by
  simp only [mha_fwd_core, set_params]
  rw [if_pos (by norm_num : (0 : ℚ) < 1)]
  simp [fwdCore, lt_irrefl]

/-- Claim C10: on every forward call with p_dropout = 0 the outputs are
independent of the supplied generator and of the default generator, the
generator state is returned unchanged, and the generator mutex is never
acquired. -/
theorem C10_generator_frame (dprops : DeviceProps) (qkvv cu_seqlens : ATTensor)
    (m : ℤ) (ss : ℚ) (zt ic rs : Bool) (g1 g2 : Option GenState) (d1 d2 : GenState)
    (e : ℕ) (p : ℚ) (hp : p = 0) :
    fwdCore (mha_fwd dprops qkvv cu_seqlens p m ss zt ic rs g1 d1 e)
      = fwdCore (mha_fwd dprops qkvv cu_seqlens p m ss zt ic rs g2 d2 e)
    ∧ fwdGenFinal (mha_fwd dprops qkvv cu_seqlens p m ss zt ic rs g1 d1 e)
      = (fwdGenFinal (mha_fwd dprops qkvv cu_seqlens p m ss zt ic rs g1 d1 e)).map
          (fun _ => g1.getD d1)
    ∧ (fwdTrace (mha_fwd dprops qkvv cu_seqlens p m ss zt ic rs g1 d1 e)).map lockCount
      = (fwdTrace (mha_fwd dprops qkvv cu_seqlens p m ss zt ic rs g1 d1 e)).map
          (fun _ => 0) := by
  subst hp
  unfold mha_fwd
  cases hchk : mha_fwd_checks dprops qkvv cu_seqlens with
  | some err => exact ⟨rfl, rfl, rfl⟩
  | none =>
    refine ⟨core_zero_gen_irrel qkvv cu_seqlens m ss zt ic rs (g1.getD d1) (g2.getD d2) e,
      ?_, ?_⟩
    · rw [core_gen qkvv cu_seqlens 0 m ss zt ic rs (g1.getD d1) e (by norm_num)]
      simp [lt_irrefl]
    · rw [core_trace qkvv cu_seqlens 0 m ss zt ic rs (g1.getD d1) e (by norm_num)]
      simp [lt_irrefl, lockCount]

/-- Witness for C10 on a validated call with two different generators. -/
theorem C10_generator_frame_witness :
    fwdCore (mha_fwd devOk qkvOk seqlensOk 0 8 1 false false false (some gen0) gen0 4)
      = fwdCore (mha_fwd devOk qkvOk seqlensOk 0 8 1 false false false (some gen1) gen1 4)
    ∧ fwdGenFinal (mha_fwd devOk qkvOk seqlensOk 0 8 1 false false false (some gen0) gen0 4)
      = (fwdGenFinal (mha_fwd devOk qkvOk seqlensOk 0 8 1 false false false
          (some gen0) gen0 4)).map (fun _ => (some gen0).getD gen0)
    ∧ (fwdTrace (mha_fwd devOk qkvOk seqlensOk 0 8 1 false false false
          (some gen0) gen0 4)).map lockCount
      = (fwdTrace (mha_fwd devOk qkvOk seqlensOk 0 8 1 false false false
          (some gen0) gen0 4)).map (fun _ => 0) :=
  C10_generator_frame devOk qkvOk seqlensOk 8 1 false false false
    (some gen0) (some gen1) gen0 gen1 4 0 rfl

end StreamAttn
